import Mathlib

/-!
Verification of the evacuation-alert response flow of the DisasterGuard
single-page application.  The definitions below are a shallow embedding of
the `EmergencyEvacuation` component (src/unnamed/part_004) together with the
row types it reads and writes (src/src/types/database.types.ts).  Network
calls are modelled by passing their results in as explicit `DbResult`
arguments, and the backend traffic an operation causes is returned as an
explicit list of `DbOp` values.
-/

namespace DisasterGuard

/-- Enum `severity_level` from database.types.ts. -/
inductive SeverityLevel where
  | low
  | medium
  | high
  | critical
deriving DecidableEq

/-- Enum `response_type` from database.types.ts (the `AlertResponse` value
type of the component). -/
inductive ResponseType where
  | yes
  | no
deriving DecidableEq

/-- Row type of the `alerts` table (database.types.ts, `alerts.Row`). -/
structure Alert where
  created_at : String
  id : String
  location : String
  message : String
  severity : SeverityLevel
  title : String
deriving DecidableEq

/-- Row type of the `alert_responses` table (database.types.ts,
`alert_responses.Row`). -/
structure AlertResponseRow where
  alert_id : String
  created_at : String
  id : Nat
  response : ResponseType
  user_id : String
deriving DecidableEq

/-- Row type of the `shelters` table (database.types.ts, `shelters.Row`).
The numeric latitude and longitude payloads are carried as integers; the
component never computes with them. -/
structure Shelter where
  address : String
  capacity : Nat
  contact : Option String
  created_at : String
  current_occupancy : Nat
  facilities : List String
  id : String
  lat : Int
  lng : Int
  name : String
deriving DecidableEq

/-- The authenticated user as seen through `useAuth`; the component only
uses `user.id`. -/
structure User where
  id : String
deriving DecidableEq

/-- View-model type `EvacuationAlert` of part_004: an `Alert` decorated with
`responded` and an optional `response` (an absent field is `none`). -/
structure EvacuationAlert extends Alert where
  responded : Bool
  response : Option ResponseType
deriving DecidableEq

/-- The pieces of component state of `EmergencyEvacuation` (the `useState`
hooks of part_004). -/
structure ComponentState where
  alerts : List EvacuationAlert
  shelters : List Shelter
  loading : Bool
  helpQuery : String
  querySubmitted : Bool
  error : Option String
deriving DecidableEq

/-- Result of one backend call: either data or an error (the component only
tests whether the error field is set, never its contents). -/
inductive DbResult (α : Type) where
  | ok (data : α)
  | err
deriving DecidableEq

/-- Backend operations the component can issue.  Update and delete
constructors are included so that their absence from every emitted trace is
a meaningful statement. -/
inductive DbOp where
  | readAlerts
  | readAlertResponses (user_id : String)
  | readShelters
  | insertAlertResponse (alert_id : String) (user_id : String) (response : ResponseType)
  | updateAlertResponse (row_id : Nat)
  | deleteAlertResponse (row_id : Nat)
deriving DecidableEq

/-- True for operations that mutate backend state. -/
def DbOp.isWrite : DbOp → Bool
  | .insertAlertResponse _ _ _ => true
  | .updateAlertResponse _ => true
  | .deleteAlertResponse _ => true
  | _ => false

/-- Membership test of the JS map `new Map(responsesData.map(r => [r.alert_id, r.response]))`
built at part_004 line 50: `userResponses.has(k)`. -/
def jsMapHas (rows : List AlertResponseRow) (k : String) : Bool :=
  rows.any (fun r => r.alert_id == k)

/-- Lookup in the same JS map: `userResponses.get(k)`.  A JS `Map` built
from an entry list keeps the value of the last entry for a repeated key, so
the lookup finds the last matching row. -/
def jsMapGet (rows : List AlertResponseRow) (k : String) : Option ResponseType :=
  (rows.reverse.find? (fun r => r.alert_id == k)).map AlertResponseRow.response

/-- The enrichment of one fetched alert (part_004 lines 51 to 55). -/
def enrichAlert (responsesData : List AlertResponseRow) (alert : Alert) : EvacuationAlert :=
  { toAlert := alert
    responded := jsMapHas responsesData alert.id
    response := jsMapGet responsesData alert.id }

/-- The initial load `fetchInitialData` (part_004 lines 28 to 74).  The
three backend reads are passed in as results; the returned list records the
reads actually issued.  The returned state is the state after the whole
load settles, including the `finally` clause that clears `loading`. -/
def fetchInitialData (user : Option User)
    (alertsRes : DbResult (List Alert))
    (responsesRes : DbResult (List AlertResponseRow))
    (sheltersRes : DbResult (List Shelter))
    (s : ComponentState) : ComponentState × List DbOp :=
  match user with
  | none => (s, [])
  | some u =>
    match alertsRes, responsesRes with
    | .ok alertsData, .ok responsesData =>
      let enrichedAlerts := alertsData.map (enrichAlert responsesData)
      match sheltersRes with
      | .ok sheltersData =>
        ({ s with alerts := enrichedAlerts
                  shelters := sheltersData
                  error := none
                  loading := false },
         [DbOp.readAlerts, DbOp.readAlertResponses u.id, DbOp.readShelters])
      | .err =>
        ({ s with alerts := enrichedAlerts
                  error := some "Failed to fetch shelters data. Please try again later."
                  loading := false },
         [DbOp.readAlerts, DbOp.readAlertResponses u.id, DbOp.readShelters])
    | _, _ =>
      ({ s with error := some "Failed to fetch alerts data. Please try again later."
                loading := false },
       [DbOp.readAlerts, DbOp.readAlertResponses u.id])

/-- The optimistic update of the alert list (part_004 lines 95 to 101). -/
def optimisticUpdate (alertId : String) (response : ResponseType)
    (alerts : List EvacuationAlert) : List EvacuationAlert :=
  alerts.map (fun alert =>
    if alert.id = alertId then
      { alert with responded := true, response := some response }
    else alert)

/-- The failure-path reversion of the alert list (part_004 lines 113 to 119). -/
def revertUpdate (alertId : String) (alerts : List EvacuationAlert) : List EvacuationAlert :=
  alerts.map (fun alert =>
    if alert.id = alertId then
      { alert with responded := false, response := none }
    else alert)

/-- Result of one call of `handleAlertResponse`: the state right after the
synchronous optimistic update (before the insert is awaited), the state
after the call settles, and the backend operations issued. -/
structure SubmitOutcome where
  preConfirm : ComponentState
  final : ComponentState
  ops : List DbOp
deriving DecidableEq

/-- The response submission `handleAlertResponse` (part_004 lines 91 to 121).
The outcome of the single insert is passed in as a result. -/
def handleAlertResponse (user : Option User) (alertId : String)
    (response : ResponseType) (insertRes : DbResult Unit)
    (s : ComponentState) : SubmitOutcome :=
  match user with
  | none => { preConfirm := s, final := s, ops := [] }
  | some u =>
    let s1 := { s with alerts := optimisticUpdate alertId response s.alerts }
    let ops := [DbOp.insertAlertResponse alertId u.id response]
    match insertRes with
    | .ok _ => { preConfirm := s1, final := s1, ops := ops }
    | .err =>
      { preConfirm := s1
        final := { s1 with
                    alerts := revertUpdate alertId s1.alerts
                    error := some "Failed to submit response. Please try again." }
        ops := ops }

/-- The realtime channel callback for an insert on `alerts` (part_004 lines
80 to 83): prepend the payload with `responded := false`; the spread leaves
`response` absent. -/
def applyInsertNotification (newAlert : Alert) (s : ComponentState) : ComponentState :=
  { s with alerts := { toAlert := newAlert, responded := false, response := none } :: s.alerts }

/-- A mounted component together with its realtime channel registration.
`channelActive` is whether the channel created at part_004 line 79 is still
registered with the client. -/
structure MountedComponent where
  state : ComponentState
  channelActive : Bool
deriving DecidableEq

/-- The effect cleanup (part_004 lines 86 to 88): `removeChannel` removes
the registration, so later deliveries no longer reach the callback. -/
def unmountCleanup (c : MountedComponent) : MountedComponent :=
  { c with channelActive := false }

/-- Delivery of one insert notification by the realtime client: the
callback runs only while the channel is registered. -/
def deliverInsertNotification (payload : Alert) (c : MountedComponent) : MountedComponent :=
  if c.channelActive then { c with state := applyInsertNotification payload c.state } else c

/-- Delivery of a sequence of insert notifications, in order. -/
def deliverAll (payloads : List Alert) (c : MountedComponent) : MountedComponent :=
  payloads.foldl (fun c p => deliverInsertNotification p c) c

/-- Client-local UI events of the alert screen: a click on one of the two
response buttons (rendered only while `responded` is false, part_004 lines
214 to 230), the resolution of an in-flight insert (success or failure,
part_004 lines 104 to 120), and the arrival of an insert notification on
the realtime channel (part_004 lines 80 to 83). -/
inductive UIEvent where
  | submitClick (alertId : String) (value : ResponseType)
  | insertOk (alertId : String) (value : ResponseType)
  | insertFailed (alertId : String) (value : ResponseType)
  | alertNotification (payload : Alert)
deriving DecidableEq

/-- The state the UI event machine acts on: the alert list, the set of
in-flight insert requests, and the error banner. -/
structure UIState where
  alerts : List EvacuationAlert
  pending : List (String × ResponseType)
  error : Option String
deriving DecidableEq

/-- One step of the alert screen.  A submit click is only effective when a
rendered entry for that id still shows the buttons, i.e. some entry with
that id has `responded = false` (the guard at part_004 line 214); the click
applies the optimistic update and leaves an insert in flight.  A failure
resolution applies the reversion and error banner of part_004 lines 110 to
120; a success resolution changes no view state. -/
def uiStep (s : UIState) (e : UIEvent) : UIState :=
  match e with
  | .submitClick alertId v =>
    if s.alerts.any (fun a => a.id == alertId && !a.responded) then
      { s with alerts := optimisticUpdate alertId v s.alerts
               pending := (alertId, v) :: s.pending }
    else s
  | .insertOk alertId v =>
    if (alertId, v) ∈ s.pending then
      { s with pending := s.pending.erase (alertId, v) }
    else s
  | .insertFailed alertId v =>
    if (alertId, v) ∈ s.pending then
      { s with alerts := revertUpdate alertId s.alerts
               error := some "Failed to submit response. Please try again."
               pending := s.pending.erase (alertId, v) }
    else s
  | .alertNotification payload =>
    { s with alerts := { toAlert := payload, responded := false, response := none } :: s.alerts }

/-- Run of the UI event machine over a sequence of events. -/
def uiRun (s : UIState) (es : List UIEvent) : UIState :=
  es.foldl uiStep s

/-- The membership test of the response map agrees with existence of a
fetched response row for that alert id. -/
theorem jsMapHas_iff (rows : List AlertResponseRow) (k : String) :
    jsMapHas rows k = true ↔ ∃ r ∈ rows, r.alert_id = k := by
  simp [jsMapHas, List.any_eq_true]

/-- When the fetched response rows carry pairwise distinct alert ids, the
map lookup returns exactly the response of the row for that id. -/
theorem jsMapGet_eq (rows : List AlertResponseRow) (k : String) (r : AlertResponseRow)
    (hnodup : (rows.map AlertResponseRow.alert_id).Nodup)
    (hr : r ∈ rows) (hk : r.alert_id = k) :
    jsMapGet rows k = some r.response := by
  have h1 : r ∈ rows.reverse := List.mem_reverse.mpr hr
  have hsome : (rows.reverse.find? (fun x => x.alert_id == k)).isSome :=
    List.find?_isSome.mpr ⟨r, h1, by simp [hk]⟩
  obtain ⟨r2, hfind⟩ := Option.isSome_iff_exists.mp hsome
  have hp : r2.alert_id = k := by simpa using List.find?_some hfind
  have hm : r2 ∈ rows := List.mem_reverse.mp (List.mem_of_find?_eq_some hfind)
  have heq : r2 = r := List.inj_on_of_nodup_map hnodup hm hr (by rw [hp, hk])
  subst heq
  simp [jsMapGet, hfind]

/-- A successful load commits the enriched alert list whatever the shelters
fetch returned. -/
theorem fetch_ok_alerts (u : User) (alertsData : List Alert)
    (responsesData : List AlertResponseRow) (sheltersRes : DbResult (List Shelter))
    (s : ComponentState) :
    (fetchInitialData (some u) (.ok alertsData) (.ok responsesData) sheltersRes s).1.alerts =
      alertsData.map (enrichAlert responsesData) := by
  cases sheltersRes <;> rfl

/-- C1: after a successful load for a known user whose fetched response rows
have pairwise distinct alert ids, every alert in the committed list is
marked responded exactly when a fetched response row carries its id, and in
that case its attached response is the stored value of that row. -/
theorem load_responded_iff_recorded (u : User) (alertsData : List Alert)
    (responsesData : List AlertResponseRow) (sheltersRes : DbResult (List Shelter))
    (s : ComponentState)
    (hnodup : (responsesData.map AlertResponseRow.alert_id).Nodup) :
    ∀ A ∈ (fetchInitialData (some u) (.ok alertsData) (.ok responsesData) sheltersRes s).1.alerts,
      (A.responded = true ↔ ∃ r ∈ responsesData, r.alert_id = A.id) ∧
      ∀ r ∈ responsesData, r.alert_id = A.id → A.response = some r.response := by
  intro A hA
  rw [fetch_ok_alerts] at hA
  obtain ⟨alert, halert, rfl⟩ := List.mem_map.mp hA
  refine ⟨?_, ?_⟩
  · simpa [enrichAlert] using jsMapHas_iff responsesData alert.id
  · intro r hr hk
    simpa [enrichAlert] using jsMapGet_eq responsesData alert.id r hnodup hr hk

/-- Sample user for concrete instantiations. -/
def sampleUser : User := ⟨"user-1"⟩

/-- Sample alert with id `alert-A`. -/
def sampleAlertA : Alert := ⟨"2025-01-01", "alert-A", "sector 1", "evacuate", .critical, "Flood"⟩

/-- Sample alert with id `alert-B`. -/
def sampleAlertB : Alert := ⟨"2025-01-02", "alert-B", "sector 2", "shelter", .low, "Storm"⟩

/-- Sample stored response row of `sampleUser` for `alert-A`. -/
def sampleRow : AlertResponseRow := ⟨"alert-A", "2025-01-03", 1, .yes, "user-1"⟩

/-- Sample pristine component state. -/
def sampleState0 : ComponentState := ⟨[], [], true, "", false, none⟩

/-- Sample component state holding one unanswered entry for `alert-A`. -/
def sampleStateUnanswered : ComponentState :=
  ⟨[{ toAlert := sampleAlertA, responded := false, response := none }], [], false, "", false, none⟩

/-- Witness for `load_responded_iff_recorded`: a concrete load of two alerts
against one stored response row. -/
theorem load_responded_iff_recorded_witness :
    (([sampleRow].map AlertResponseRow.alert_id).Nodup) ∧
    ∀ A ∈ (fetchInitialData (some sampleUser) (.ok [sampleAlertA, sampleAlertB])
            (.ok [sampleRow]) (.ok []) sampleState0).1.alerts,
      (A.responded = true ↔ ∃ r ∈ [sampleRow], r.alert_id = A.id) ∧
      ∀ r ∈ [sampleRow], r.alert_id = A.id → A.response = some r.response :=
  ⟨by decide, load_responded_iff_recorded sampleUser [sampleAlertA, sampleAlertB]
    [sampleRow] (.ok []) sampleState0 (by decide)⟩

/-- The state of the submission before its insert resolves is the state
with the optimistic update applied, whatever the insert later returns. -/
theorem handle_preConfirm (u : User) (alertId : String) (v : ResponseType)
    (insertRes : DbResult Unit) (s : ComponentState) :
    (handleAlertResponse (some u) alertId v insertRes s).preConfirm =
      { s with alerts := optimisticUpdate alertId v s.alerts } := by
  cases insertRes <;> rfl

/-- C2: the submission updates the targeted entry before the write is
confirmed: in the pre-confirmation state the entry at the targeted position
is its old value with `responded := true` and the submitted response
attached, and the list keeps its length. -/
theorem submit_optimistic_before_confirm (u : User) (alertId : String)
    (v : ResponseType) (insertRes : DbResult Unit) (s : ComponentState)
    (i : Nat) (hi : i < s.alerts.length)
    (hid : (s.alerts.get ⟨i, hi⟩).id = alertId)
    (_hnr : (s.alerts.get ⟨i, hi⟩).responded = false) :
    (handleAlertResponse (some u) alertId v insertRes s).preConfirm.alerts.length =
      s.alerts.length ∧
    ∃ hi2 : i < (handleAlertResponse (some u) alertId v insertRes s).preConfirm.alerts.length,
      (handleAlertResponse (some u) alertId v insertRes s).preConfirm.alerts.get ⟨i, hi2⟩ =
        { s.alerts.get ⟨i, hi⟩ with responded := true, response := some v } := by
  rw [handle_preConfirm]
  simp only [List.get_eq_getElem] at hid
  refine ⟨by simp [optimisticUpdate], ?_⟩
  refine ⟨by simpa [optimisticUpdate] using hi, ?_⟩
  simp [optimisticUpdate, hid]

/-- Witness for `submit_optimistic_before_confirm` at a concrete state with
one unanswered entry. -/
theorem submit_optimistic_before_confirm_witness :
    (0 < sampleStateUnanswered.alerts.length) ∧
    ((sampleStateUnanswered.alerts.get ⟨0, by decide⟩).id = "alert-A") ∧
    ((sampleStateUnanswered.alerts.get ⟨0, by decide⟩).responded = false) ∧
    ((handleAlertResponse (some sampleUser) "alert-A" .yes (.ok ()) sampleStateUnanswered).preConfirm.alerts.length =
       sampleStateUnanswered.alerts.length ∧
     ∃ hi2 : 0 < (handleAlertResponse (some sampleUser) "alert-A" .yes (.ok ()) sampleStateUnanswered).preConfirm.alerts.length,
       (handleAlertResponse (some sampleUser) "alert-A" .yes (.ok ()) sampleStateUnanswered).preConfirm.alerts.get ⟨0, hi2⟩ =
         { sampleStateUnanswered.alerts.get ⟨0, by decide⟩ with responded := true, response := some .yes }) :=
  ⟨by decide, by decide, by decide,
   submit_optimistic_before_confirm sampleUser "alert-A" .yes (.ok ()) sampleStateUnanswered
     0 (by decide) (by decide) (by decide)⟩

/-- Reverting right after the optimistic update restores an entry that was
unanswered with no attached response. -/
theorem revert_after_optimistic (alertId : String) (v : ResponseType)
    (a : EvacuationAlert) (hid : a.id = alertId)
    (h1 : a.responded = false) (h2 : a.response = none) :
    (fun alert => if alert.id = alertId then
        { alert with responded := false, response := none } else alert)
      ((fun alert => if alert.id = alertId then
        { alert with responded := true, response := some v } else alert) a) = a := by
  obtain ⟨ta, r, rsp⟩ := a
  simp only at hid h1 h2
  subst h1; subst h2
  simp [hid]

/-- C3: when the insert fails, the submission leaves the targeted entry in
its pre-submission unanswered state, sets the recoverable error banner, and
issues exactly the one insert (no retry). -/
theorem submit_failure_reverts (u : User) (alertId : String) (v : ResponseType)
    (s : ComponentState) (i : Nat) (hi : i < s.alerts.length)
    (hid : (s.alerts.get ⟨i, hi⟩).id = alertId)
    (hnr : (s.alerts.get ⟨i, hi⟩).responded = false)
    (hresp : (s.alerts.get ⟨i, hi⟩).response = none) :
    (handleAlertResponse (some u) alertId v .err s).final.alerts.length = s.alerts.length ∧
    (∃ hi2 : i < (handleAlertResponse (some u) alertId v .err s).final.alerts.length,
      (handleAlertResponse (some u) alertId v .err s).final.alerts.get ⟨i, hi2⟩ =
        s.alerts.get ⟨i, hi⟩) ∧
    (handleAlertResponse (some u) alertId v .err s).final.error =
      some "Failed to submit response. Please try again." ∧
    (handleAlertResponse (some u) alertId v .err s).ops =
      [DbOp.insertAlertResponse alertId u.id v] := by
  refine ⟨by simp [handleAlertResponse, revertUpdate, optimisticUpdate], ?_, rfl, rfl⟩
  refine ⟨by simpa [handleAlertResponse, revertUpdate, optimisticUpdate] using hi, ?_⟩
  have hrev := revert_after_optimistic alertId v (s.alerts.get ⟨i, hi⟩) hid hnr hresp
  simp only [List.get_eq_getElem] at hrev
  simpa [handleAlertResponse, revertUpdate, optimisticUpdate] using hrev

/-- Witness for `submit_failure_reverts` at a concrete state with one
unanswered entry and a failing insert. -/
theorem submit_failure_reverts_witness :
    (0 < sampleStateUnanswered.alerts.length) ∧
    ((sampleStateUnanswered.alerts.get ⟨0, by decide⟩).id = "alert-A") ∧
    ((sampleStateUnanswered.alerts.get ⟨0, by decide⟩).responded = false) ∧
    ((sampleStateUnanswered.alerts.get ⟨0, by decide⟩).response = none) ∧
    ((handleAlertResponse (some sampleUser) "alert-A" .no .err sampleStateUnanswered).final.alerts.length =
       sampleStateUnanswered.alerts.length ∧
     (∃ hi2 : 0 < (handleAlertResponse (some sampleUser) "alert-A" .no .err sampleStateUnanswered).final.alerts.length,
       (handleAlertResponse (some sampleUser) "alert-A" .no .err sampleStateUnanswered).final.alerts.get ⟨0, hi2⟩ =
         sampleStateUnanswered.alerts.get ⟨0, by decide⟩) ∧
     (handleAlertResponse (some sampleUser) "alert-A" .no .err sampleStateUnanswered).final.error =
       some "Failed to submit response. Please try again." ∧
     (handleAlertResponse (some sampleUser) "alert-A" .no .err sampleStateUnanswered).ops =
       [DbOp.insertAlertResponse "alert-A" sampleUser.id .no]) :=
  ⟨by decide, by decide, by decide, by decide,
   submit_failure_reverts sampleUser "alert-A" .no sampleStateUnanswered
     0 (by decide) (by decide) (by decide) (by decide)⟩

/-- C4: a notification received while mounted adds exactly one entry at the
head of the list, with `responded = false` and no stored response, and the
tail is exactly the previous list, so every pre-existing entry is
unchanged; no other component state is touched. -/
theorem notification_prepends_exactly_one (newAlert : Alert) (s : ComponentState) :
    (applyInsertNotification newAlert s).alerts =
      { toAlert := newAlert, responded := false, response := none } :: s.alerts ∧
    (applyInsertNotification newAlert s).shelters = s.shelters ∧
    (applyInsertNotification newAlert s).loading = s.loading ∧
    (applyInsertNotification newAlert s).error = s.error :=
  ⟨rfl, rfl, rfl, rfl⟩

/-- C10: with no current user, both the load and the submission return the
state unchanged and issue no backend operation at all. -/
theorem no_user_noop (alertId : String) (v : ResponseType) (insertRes : DbResult Unit)
    (s : ComponentState) (alertsRes : DbResult (List Alert))
    (responsesRes : DbResult (List AlertResponseRow))
    (sheltersRes : DbResult (List Shelter)) (s2 : ComponentState) :
    handleAlertResponse none alertId v insertRes s =
      { preConfirm := s, final := s, ops := [] } ∧
    fetchInitialData none alertsRes responsesRes sheltersRes s2 = (s2, []) :=
  ⟨rfl, rfl⟩

/-- Delivering notifications to a component whose channel registration was
removed changes nothing. -/
theorem deliverAll_inactive (payloads : List Alert) (c : MountedComponent)
    (h : c.channelActive = false) : deliverAll payloads c = c := by
  induction payloads with
  | nil => rfl
  | cons p ps ih =>
    simp only [deliverAll, List.foldl_cons, deliverInsertNotification, h]
    simpa [deliverAll] using ih

/-- C8: after the unmount cleanup removes the channel, any sequence of
subsequently delivered notifications leaves the component state untouched:
the alert list is never mutated after unmount. -/
theorem unmount_stops_list_mutations (c : MountedComponent) (payloads : List Alert) :
    (deliverAll payloads (unmountCleanup c)).state = c.state := by
  rw [deliverAll_inactive payloads (unmountCleanup c) rfl]
  rfl

/-- C7: a submission with a known user issues exactly one backend write, the
insert of the triple into `alert_responses`, whether or not the insert
succeeds; without a user it issues nothing; and the load issues no write
operation whatsoever (in particular neither ever updates or deletes an
`alert_responses` row). -/
theorem single_insert_only_write (u : User) (alertId : String) (v : ResponseType)
    (insertRes : DbResult Unit) (s : ComponentState) (user2 : Option User)
    (alertsRes : DbResult (List Alert)) (responsesRes : DbResult (List AlertResponseRow))
    (sheltersRes : DbResult (List Shelter)) (s2 : ComponentState) :
    (handleAlertResponse (some u) alertId v insertRes s).ops =
      [DbOp.insertAlertResponse alertId u.id v] ∧
    (handleAlertResponse none alertId v insertRes s).ops = [] ∧
    (fetchInitialData user2 alertsRes responsesRes sheltersRes s2).2.filter DbOp.isWrite = [] := by
  refine ⟨?_, ?_, ?_⟩
  · cases insertRes <;> rfl
  · rfl
  · cases user2 with
    | none => rfl
    | some u2 =>
      cases alertsRes <;> cases responsesRes <;> cases sheltersRes <;>
        simp [fetchInitialData, DbOp.isWrite]

/-- C5 counterexample: a load whose shelters fetch fails still commits the
enriched alert list (part_004 line 56 runs before the shelters fetch at
line 59), so it is not true that a failing load commits no alert view
state.  Here the load starts from an empty list, the shelters fetch fails,
the error banner is set, and yet the alert list was changed by the failed
load attempt. -/
theorem load_failure_commits_alerts :
    (fetchInitialData (some sampleUser) (.ok [sampleAlertA]) (.ok []) .err sampleState0).1.error =
      some "Failed to fetch shelters data. Please try again later." ∧
    (fetchInitialData (some sampleUser) (.ok [sampleAlertA]) (.ok []) .err sampleState0).1.alerts ≠
      sampleState0.alerts := by
  decide

/-- C5 amended: whenever any of the three fetches of a load fails, a
user-visible error is set for that attempt, the shelters state is never
committed, the alert state is not committed when the alerts or responses
fetch failed (though it is already committed when only the shelters fetch
fails), and no read is reissued (each table is fetched at most once, so
there is no automatic retry). -/
theorem load_failure_surfaces_error (u : User) (alertsRes : DbResult (List Alert))
    (responsesRes : DbResult (List AlertResponseRow)) (sheltersRes : DbResult (List Shelter))
    (s : ComponentState)
    (hfail : alertsRes = .err ∨ responsesRes = .err ∨ sheltersRes = .err) :
    (fetchInitialData (some u) alertsRes responsesRes sheltersRes s).1.error.isSome = true ∧
    (fetchInitialData (some u) alertsRes responsesRes sheltersRes s).1.shelters = s.shelters ∧
    ((alertsRes = .err ∨ responsesRes = .err) →
      (fetchInitialData (some u) alertsRes responsesRes sheltersRes s).1.alerts = s.alerts) ∧
    (fetchInitialData (some u) alertsRes responsesRes sheltersRes s).2.countP
      (fun op => op == DbOp.readAlerts) ≤ 1 ∧
    (fetchInitialData (some u) alertsRes responsesRes sheltersRes s).2.countP
      (fun op => op == DbOp.readAlertResponses u.id) ≤ 1 ∧
    (fetchInitialData (some u) alertsRes responsesRes sheltersRes s).2.countP
      (fun op => op == DbOp.readShelters) ≤ 1 := by
  cases alertsRes <;> cases responsesRes <;> cases sheltersRes <;>
    simp_all [fetchInitialData, List.countP_cons]

/-- Witness for `load_failure_surfaces_error` with a failing alerts fetch. -/
theorem load_failure_surfaces_error_witness :
    ((.err : DbResult (List Alert)) = .err ∨ (.ok [sampleRow] : DbResult (List AlertResponseRow)) = .err ∨
      (.ok [] : DbResult (List Shelter)) = .err) ∧
    ((fetchInitialData (some sampleUser) .err (.ok [sampleRow]) (.ok []) sampleState0).1.error.isSome = true ∧
     (fetchInitialData (some sampleUser) .err (.ok [sampleRow]) (.ok []) sampleState0).1.shelters =
       sampleState0.shelters ∧
     (((.err : DbResult (List Alert)) = .err ∨ (.ok [sampleRow] : DbResult (List AlertResponseRow)) = .err) →
       (fetchInitialData (some sampleUser) .err (.ok [sampleRow]) (.ok []) sampleState0).1.alerts =
         sampleState0.alerts) ∧
     (fetchInitialData (some sampleUser) .err (.ok [sampleRow]) (.ok []) sampleState0).2.countP
       (fun op => op == DbOp.readAlerts) ≤ 1 ∧
     (fetchInitialData (some sampleUser) .err (.ok [sampleRow]) (.ok []) sampleState0).2.countP
       (fun op => op == DbOp.readAlertResponses sampleUser.id) ≤ 1 ∧
     (fetchInitialData (some sampleUser) .err (.ok [sampleRow]) (.ok []) sampleState0).2.countP
       (fun op => op == DbOp.readShelters) ≤ 1) :=
  ⟨by decide, load_failure_surfaces_error sampleUser .err (.ok [sampleRow]) (.ok []) sampleState0
    (by decide)⟩

/-- The id carried by a notification event, if the event is one. -/
def UIEvent.notifyId : UIEvent → Option String
  | .alertNotification a => some a.id
  | _ => none

/-- Invariant of the UI machine relative to an alert id `x`: every listed
entry with id `x` is answered and no insert for `x` is in flight. -/
def NoUnansweredFor (x : String) (s : UIState) : Prop :=
  (∀ a ∈ s.alerts, a.id = x → a.responded = true) ∧ ∀ p ∈ s.pending, p.1 ≠ x

instance NoUnansweredFor.instDecidable (x : String) (s : UIState) :
    Decidable (NoUnansweredFor x s) :=
  inferInstanceAs (Decidable
    ((∀ a ∈ s.alerts, a.id = x → a.responded = true) ∧ ∀ p ∈ s.pending, p.1 ≠ x))

/-- One UI step preserves the invariant as long as the step is not a
notification carrying the protected id. -/
theorem uiStep_preserves_answered (x : String) (s : UIState) (e : UIEvent)
    (hinv : NoUnansweredFor x s) (hnotify : e.notifyId ≠ some x) :
    NoUnansweredFor x (uiStep s e) := by
  cases e with
  | submitClick alertId v =>
    by_cases hg : s.alerts.any (fun a => a.id == alertId && !a.responded) = true
    · obtain ⟨a, ha, hpa⟩ := List.any_eq_true.mp hg
      have hida : a.id = alertId ∧ a.responded = false := by simpa using hpa
      have hx : alertId ≠ x := by
        intro h
        subst h
        have := hinv.1 a ha hida.1
        rw [hida.2] at this
        exact Bool.false_ne_true this
      constructor
      · intro b hb hbx
        simp only [uiStep, hg, if_true] at hb
        obtain ⟨c, hc, rfl⟩ := List.mem_map.mp hb
        by_cases hc2 : c.id = alertId
        · simp [hc2]
        · simp only [hc2, if_neg, not_false_iff] at hbx ⊢
          exact hinv.1 c hc hbx
      · intro p hp
        simp only [uiStep, hg, if_true] at hp
        rcases List.mem_cons.mp hp with h | h
        · subst h
          exact hx
        · exact hinv.2 p h
    · simpa [uiStep, hg] using hinv
  | insertOk alertId v =>
    by_cases hg : (alertId, v) ∈ s.pending
    · refine ⟨?_, ?_⟩
      · intro b hb hbx
        simp only [uiStep, if_pos hg] at hb
        exact hinv.1 b hb hbx
      · intro p hp
        simp only [uiStep, if_pos hg] at hp
        exact hinv.2 p (List.mem_of_mem_erase hp)
    · simp only [uiStep, if_neg hg]
      exact hinv
  | insertFailed alertId v =>
    by_cases hg : (alertId, v) ∈ s.pending
    · have hx : alertId ≠ x := hinv.2 (alertId, v) hg
      refine ⟨?_, ?_⟩
      · intro b hb hbx
        simp only [uiStep, if_pos hg, revertUpdate] at hb
        obtain ⟨c, hc, rfl⟩ := List.mem_map.mp hb
        by_cases hc2 : c.id = alertId
        · simp only [hc2, if_pos] at hbx
          exact absurd hbx hx
        · simp only [hc2, if_neg, not_false_iff] at hbx ⊢
          exact hinv.1 c hc hbx
      · intro p hp
        simp only [uiStep, if_pos hg] at hp
        exact hinv.2 p (List.mem_of_mem_erase hp)
    · simp only [uiStep, if_neg hg]
      exact hinv
  | alertNotification a =>
    have hax : a.id ≠ x := by
      simpa [UIEvent.notifyId] using hnotify
    refine ⟨?_, ?_⟩
    · intro b hb hbx
      rcases List.mem_cons.mp hb with h | h
      · subst h
        exact absurd hbx hax
      · exact hinv.1 b h hbx
    · intro p hp
      exact hinv.2 p hp

/-- C6 counterexample: Answered is not terminal.  Starting from a single
entry for `alert-A` already answered `yes`, the sequence consisting of a
(duplicate-id) insert notification for `alert-A`, a submit click on the
re-enabled buttons, and a failing insert, drives every entry for
`alert-A` — including the originally answered one, sitting at position 1 —
back to `responded = false` with no stored response. -/
theorem answered_not_terminal :
    (⟨[{ toAlert := sampleAlertA, responded := true, response := some .yes }], [], none⟩ :
        UIState).alerts.map (fun a => (a.id, a.responded)) = [("alert-A", true)] ∧
    (uiRun ⟨[{ toAlert := sampleAlertA, responded := true, response := some .yes }], [], none⟩
        [.alertNotification sampleAlertA, .submitClick "alert-A" .no,
         .insertFailed "alert-A" .no]).alerts.map (fun a => (a.id, a.responded)) =
      [("alert-A", false), ("alert-A", false)] := by
  decide

/-- C6 amended: an answered alert id is terminal as long as no event
re-introduces that id.  If every listed entry with id `x` is answered, no
insert for `x` is in flight, and no notification in the event sequence
carries id `x`, then after any such sequence every entry with id `x` is
still answered — in particular no such entry ever returns to
`responded = false`. -/
theorem answered_terminal_unless_duplicate (x : String) (s : UIState) (es : List UIEvent)
    (hinv : NoUnansweredFor x s)
    (hnotify : ∀ e ∈ es, e.notifyId ≠ some x) :
    ∀ a ∈ (uiRun s es).alerts, a.id = x → a.responded = true := by
  suffices h : NoUnansweredFor x (uiRun s es) from h.1
  induction es generalizing s with
  | nil => exact hinv
  | cons e es ih =>
    have hstep := uiStep_preserves_answered x s e hinv (hnotify e (by simp))
    have hrest : ∀ e2 ∈ es, UIEvent.notifyId e2 ≠ some x := by
      intro e2 he2
      exact hnotify e2 (by simp [he2])
    simpa [uiRun] using ih (uiStep s e) hstep hrest

/-- Witness for `answered_terminal_unless_duplicate`: an answered entry for
`alert-A` survives a notification, submit and failing insert that all
concern `alert-B`. -/
theorem answered_terminal_unless_duplicate_witness :
    NoUnansweredFor "alert-A"
      ⟨[{ toAlert := sampleAlertA, responded := true, response := some .yes }], [], none⟩ ∧
    (∀ e ∈ [UIEvent.alertNotification sampleAlertB, UIEvent.submitClick "alert-B" ResponseType.yes,
            UIEvent.insertFailed "alert-B" ResponseType.yes], e.notifyId ≠ some "alert-A") ∧
    ∀ a ∈ (uiRun ⟨[{ toAlert := sampleAlertA, responded := true, response := some .yes }], [], none⟩
        [UIEvent.alertNotification sampleAlertB, UIEvent.submitClick "alert-B" ResponseType.yes,
         UIEvent.insertFailed "alert-B" ResponseType.yes]).alerts,
      a.id = "alert-A" → a.responded = true :=
  ⟨by decide, by decide,
   answered_terminal_unless_duplicate "alert-A"
     ⟨[{ toAlert := sampleAlertA, responded := true, response := some .yes }], [], none⟩
     [UIEvent.alertNotification sampleAlertB, UIEvent.submitClick "alert-B" ResponseType.yes,
      UIEvent.insertFailed "alert-B" ResponseType.yes]
     (by decide) (by decide)⟩

/-- C9: the notification handler prepends unconditionally; when an entry
with the payload id is already present, the list grows by one anyway and
afterwards holds at least two entries with that id, so id-uniqueness of the
in-memory list is not maintained. -/
theorem notification_allows_duplicate_ids (newAlert : Alert) (s : ComponentState)
    (h : 1 ≤ s.alerts.countP (fun a => a.id == newAlert.id)) :
    (applyInsertNotification newAlert s).alerts.length = s.alerts.length + 1 ∧
    2 ≤ (applyInsertNotification newAlert s).alerts.countP (fun a => a.id == newAlert.id) := by
  constructor
  · simp [applyInsertNotification]
  · simpa [applyInsertNotification, List.countP_cons] using h

/-- Witness for `notification_allows_duplicate_ids` at a concrete state that
already holds an entry with the same id. -/
theorem notification_allows_duplicate_ids_witness :
    1 ≤ (ComponentState.mk
          [{ toAlert := ⟨"now", "a1", "loc", "msg", .low, "t"⟩,
             responded := false, response := none }] [] false "" false none).alerts.countP
          (fun a => a.id == (⟨"now", "a1", "loc", "msg", .low, "t"⟩ : Alert).id) ∧
    ((applyInsertNotification ⟨"now", "a1", "loc", "msg", .low, "t"⟩
        (ComponentState.mk
          [{ toAlert := ⟨"now", "a1", "loc", "msg", .low, "t"⟩,
             responded := false, response := none }] [] false "" false none)).alerts.length =
      (ComponentState.mk
          [{ toAlert := ⟨"now", "a1", "loc", "msg", .low, "t"⟩,
             responded := false, response := none }] [] false "" false none).alerts.length + 1 ∧
     2 ≤ (applyInsertNotification ⟨"now", "a1", "loc", "msg", .low, "t"⟩
        (ComponentState.mk
          [{ toAlert := ⟨"now", "a1", "loc", "msg", .low, "t"⟩,
             responded := false, response := none }] [] false "" false none)).alerts.countP
          (fun a => a.id == (⟨"now", "a1", "loc", "msg", .low, "t"⟩ : Alert).id)) :=
  ⟨by decide, notification_allows_duplicate_ids _ _ (by decide)⟩

end DisasterGuard
